import Mathlib

/-
  Verification development for the CashBackAPI data-model module
  (`models.py`): pydantic-v1 models Customer, Product,
  CashBackTransaction and JWTPayload, embedded shallowly.

  Modelling conventions for the pydantic v1 runtime, which hosts the
  validators in the source:
  * A model class is embedded as a Lean structure holding the validated
    field values; construction is a function returning an `Outcome`.
  * pydantic validates the declared fields in declaration order.  Each
    `@validator` may raise `ValueError` (caught, recorded as a per-field
    error) and the errors of all fields are collected into a single
    `ValidationError`; construction succeeds iff no field erred.
    Exceptions other than ValueError/TypeError/AssertionError raised
    inside a validator are not caught and escape construction
    (`Outcome.uncaught`).
  * A validator declared with a `values` parameter receives the dict of
    the previously validated fields; a field whose own validation failed
    is absent from that dict, so a `values[...]` subscript for it raises
    an uncaught `KeyError`.
  * The external category reference set `PRODUCT_CATEGORIES` (imported
    from `db_api.info_tb`, a collaborator outside this module) is passed
    explicitly as a `cats : List String` parameter.
-/

/-- Result of constructing a pydantic model: a validated instance, a
`ValidationError` carrying (field, reason) pairs, or an exception that
the validation machinery does not catch. -/
inductive Outcome (α : Type) where
  | ok (val : α)
  | validationError (errs : List (String × String))
  | uncaught (exc : String)
deriving DecidableEq

/-- Construction succeeded. -/
def Outcome.isOk {α : Type} : Outcome α → Bool
  | .ok _ => true
  | _ => false

/-- Customer model: `customer_name: str`, `customer_cpf: int`; the class
declares no validators. -/
structure Customer where
  customer_name : String
  customer_cpf : Int
deriving DecidableEq

/-- Customer construction: with well-typed field values and no declared
validators, pydantic v1 always returns the instance as given. -/
def constructCustomer (name : String) (cpf : Int) : Outcome Customer :=
  Outcome.ok ⟨name, cpf⟩

/-- Product model: `category: str`, `quantity: int`, `value: int`
(declared in this order; the `value` field is annotated `int` in the
source even though its docstring says float). -/
structure Product where
  category : String
  quantity : Int
  value : Int
deriving DecidableEq

/-- Character class `[A-Za-z]` of the source pattern `RE_NAMES`. -/
def isAsciiLetter (c : Char) : Bool :=
  ('A' ≤ c && c ≤ 'Z') || ('a' ≤ c && c ≤ 'z')

/-- Split a character list at every space, keeping empty chunks, exactly
as Python's split-on-one-space / Lean's `splitOn " "` would. -/
def splitWords : List Char → List (List Char)
  | [] => [[]]
  | c :: rest =>
    if c = ' ' then [] :: splitWords rest
    else
      match splitWords rest with
      | [] => [[c]]
      | w :: ws => (c :: w) :: ws

/-- A chunk of `lo` to `hi` ASCII letters. -/
def letterWord (lo hi : Nat) (w : List Char) : Bool :=
  decide (lo ≤ w.length) && decide (w.length ≤ hi) && w.all isAsciiLetter

/-- Full match of `RE_NAMES = "[A-Za-z]{3,20}( [A-Za-z]{2,25})?"`:
one word of 3-20 letters, optionally followed by a single space and a
second word of 2-25 letters.  Splitting at spaces is equivalent to the
regex because neither word may contain a space. -/
def re_names_fullmatch (s : String) : Bool :=
  match splitWords s.toList with
  | [w] => letterWord 3 20 w
  | [w1, w2] => letterWord 3 20 w1 && letterWord 2 25 w2
  | _ => false

/-- Validator `category_must_be_valid`: raises ValueError
"product name invalid" when the name pattern does not fully match, then
ValueError "unknown product" when the string is not in the external
category set; `none` means the validator returned the value. -/
def category_must_be_valid (cats : List String) (v : String) : Option String :=
  if re_names_fullmatch v = false then some "product name invalid"
  else if v ∈ cats then none
  else some "unknown product"

/-- Validator `quantity_must_be_positive`: raises ValueError on a
negative quantity. -/
def quantity_must_be_positive (v : Int) : Option String :=
  if v < 0 then some "product quantity cannot be negative" else none

/-- Result of running the `value` validator: returned normally, raised a
ValueError (caught by pydantic), or raised some other exception
(uncaught). -/
inductive ValueCheck where
  | passed
  | valueError (msg : String)
  | raised (exc : String)
deriving DecidableEq

/-- Validator `value_must_be_positive(v, values)`.  `qtyPresent` says
whether `values` contains the key `quantity`, i.e. whether the quantity
field validated successfully.  The Python body first tests `v < 0`;
otherwise, when `v != 0`, it subscripts `values["quantity"]`, which
raises KeyError when the key is absent. -/
def value_must_be_positive (v : Int) (qtyPresent : Bool) (quantity : Int) :
    ValueCheck :=
  if v < 0 then ValueCheck.valueError "product value cannot be negative"
  else if v ≠ 0 then
    if qtyPresent then
      if quantity = 0 then ValueCheck.valueError "product whitout the quantity"
      else ValueCheck.passed
    else ValueCheck.raised "KeyError: quantity"
  else ValueCheck.passed

/-- Turn one field's optional error into its contribution to the
collected error list. -/
def optErr (field : String) : Option String → List (String × String)
  | some msg => [(field, msg)]
  | none => []

/-- Product construction: pydantic v1 validates `category`, `quantity`,
`value` in declaration order, collecting each field's ValueError; an
exception the machinery does not catch (the KeyError of
`value_must_be_positive`) escapes instead.  Success requires an empty
error list. -/
def constructProduct (cats : List String) (category : String)
    (quantity value : Int) : Outcome Product :=
  let catErr := category_must_be_valid cats category
  let qtyErr := quantity_must_be_positive quantity
  match value_must_be_positive value qtyErr.isNone quantity with
  | ValueCheck.raised exc => Outcome.uncaught exc
  | ValueCheck.valueError msg =>
    Outcome.validationError
      (optErr "category" catErr ++ optErr "quantity" qtyErr ++ [("value", msg)])
  | ValueCheck.passed =>
    match optErr "category" catErr ++ optErr "quantity" qtyErr with
    | [] => Outcome.ok ⟨category, quantity, value⟩
    | errs => Outcome.validationError errs

/-- Python `int(x)` applied to a float: truncation toward zero.  This is
the coercion pydantic v1 applies when a float is supplied for the
`int`-annotated `value` field. -/
def pyIntOfRat (x : Rat) : Int :=
  x.num.tdiv (x.den : Int)

/-- Product construction from a float `value` argument: pydantic v1
first coerces the float to the declared field type `int`, then runs the
validators on the coerced value. -/
def constructProductFloatValue (cats : List String) (category : String)
    (quantity : Int) (value : Rat) : Outcome Product :=
  constructProduct cats category quantity (pyIntOfRat value)

/-- Field names declared by the `JWTPayload` pydantic model; attribute
access on an instance resolves only these (pydantic v1 models reject
unknown attribute reads with AttributeError). -/
def jwtPayloadFields : List String := ["sub", "exp"]

/-- JWTPayload model: `sub: str` and `exp: Optional[datetime]`, the
latter modelled as POSIX seconds. -/
structure JWTPayload where
  sub : String
  exp : Option Int
deriving DecidableEq

/-- Method `update_exp_date(self, lifetime=timedelta(minutes=15))`.  Its
body is `self.exp = self.datetime.utcnow() + lifetime`: evaluating the
right-hand side first resolves the attribute `datetime` on the
instance, and only the declared fields of `jwtPayloadFields` resolve,
so the lookup raises AttributeError before any assignment can happen.
`now` stands for the current UTC time and `lifetime` for the timedelta,
both in seconds. -/
def JWTPayload.update_exp_date (p : JWTPayload) (now lifetime : Int) :
    Except String JWTPayload :=
  if jwtPayloadFields.contains "datetime" then
    Except.ok { p with exp := some (now + lifetime) }
  else
    Except.error "AttributeError"

/-- Numeric value of a list of decimal digit characters. -/
def digitsToNat (l : List Char) : Nat :=
  l.foldl (fun a c => 10 * a + (c.toNat - 48)) 0

/-- Longest digit prefix of a character list, and the remainder. -/
def takeDigits : List Char → List Char × List Char
  | [] => ([], [])
  | c :: rest =>
    if c.isDigit then
      let p := takeDigits rest
      (c :: p.1, p.2)
    else ([], c :: rest)

/-- Gregorian leap-year rule, as used by Python's `datetime`. -/
def isLeapYear (y : Nat) : Bool :=
  y % 4 == 0 && (y % 100 != 0 || y % 400 == 0)

/-- Number of days of a month, as checked by the `datetime`
constructor. -/
def daysInMonth (y m : Nat) : Nat :=
  if m == 2 then (if isLeapYear y then 29 else 28)
  else if m == 4 || m == 6 || m == 9 || m == 11 then 30
  else 31

/-- Parsed value of the `sold_at: datetime` field. -/
structure PyDateTime where
  year : Nat
  month : Nat
  day : Nat
  hour : Nat
  minute : Nat
  second : Nat
  microsecond : Nat
  tzOffsetMinutes : Option Int
deriving DecidableEq

/-- Python's `timezone(timedelta(minutes=off))` accepts offsets strictly
between -24 and +24 hours. -/
def tzBoundOk : Option Int → Bool
  | none => true
  | some off => decide (-1440 < off) && decide (off < 1440)

/-- Range checks of `datetime(year, ..., second, tzinfo)`: this is where
pydantic turns an out-of-range component (caught as ValueError) into a
rejection. -/
def mkPyDateTime (y mo d h mi s usec : Nat) (tz : Option Int) :
    Option PyDateTime :=
  if 1 ≤ y ∧ y ≤ 9999 ∧ 1 ≤ mo ∧ mo ≤ 12 ∧ 1 ≤ d ∧ d ≤ daysInMonth y mo ∧
      h ≤ 23 ∧ mi ≤ 59 ∧ s ≤ 59 ∧ tzBoundOk tz = true
  then some ⟨y, mo, d, h, mi, s, usec, tz⟩
  else none

/-- Trailing timezone of pydantic v1's `datetime_re`: nothing, `Z`, or a
sign followed by `HH`, `HHMM` or `HH:MM`; converted to signed minutes as
in pydantic's `_parse_timezone`. -/
def parseTzTail : List Char → Option (Option Int)
  | [] => some none
  | ['Z'] => some (some 0)
  | sgn :: h1 :: h2 :: rest =>
    if (sgn == '+' || sgn == '-') && h1.isDigit && h2.isDigit then
      let hh : Int := Int.ofNat (digitsToNat [h1, h2])
      let signOf := fun (off : Int) => if sgn == '-' then -off else off
      match rest with
      | [] => some (some (signOf (60 * hh)))
      | [m1, m2] =>
        if m1.isDigit && m2.isDigit then
          some (some (signOf (60 * hh + Int.ofNat (digitsToNat [m1, m2]))))
        else none
      | [c, m1, m2] =>
        if c == ':' && m1.isDigit && m2.isDigit then
          some (some (signOf (60 * hh + Int.ofNat (digitsToNat [m1, m2]))))
        else none
      | _ => none
    else none
  | _ => none

/-- Tail of the datetime parse: optional timezone, end of input, then
the `datetime(...)` construction. -/
def parseTzEndThen (y mo d h mi s usec : Nat) (l : List Char) :
    Option PyDateTime :=
  match parseTzTail l with
  | none => none
  | some tz => mkPyDateTime y mo d h mi s usec tz

/-- Optional `:SS` seconds group with its optional `.ffffff` fraction
(1-12 digits; the first six are the microseconds, right-padded to
six), as in `datetime_re`. -/
def parseSecondPart (y mo d h mi : Nat) (l : List Char) : Option PyDateTime :=
  match l with
  | ':' :: rest =>
    let p := takeDigits rest
    if 1 ≤ p.1.length ∧ p.1.length ≤ 2 then
      match p.2 with
      | '.' :: rest2 =>
        let f := takeDigits rest2
        if 1 ≤ f.1.length ∧ f.1.length ≤ 12 then
          parseTzEndThen y mo d h mi (digitsToNat p.1)
            (digitsToNat (f.1.take 6) * 10 ^ (6 - (f.1.take 6).length)) f.2
        else none
      | rest2 => parseTzEndThen y mo d h mi (digitsToNat p.1) 0 rest2
    else none
  | rest => parseTzEndThen y mo d h mi 0 0 rest

/-- `H[H]:M[M]` time part of `datetime_re`. -/
def parseTimePart (y mo d : Nat) (l : List Char) : Option PyDateTime :=
  let h := takeDigits l
  if 1 ≤ h.1.length ∧ h.1.length ≤ 2 then
    match h.2 with
    | ':' :: rest =>
      let mi := takeDigits rest
      if 1 ≤ mi.1.length ∧ mi.1.length ≤ 2 then
        parseSecondPart y mo d (digitsToNat h.1) (digitsToNat mi.1) mi.2
      else none
    | _ => none
  else none

/-- `D[D]` day group of `datetime_re`, followed by the `[T ]`
separator. -/
def parseDayPart (y mo : Nat) (l : List Char) : Option PyDateTime :=
  let d := takeDigits l
  if 1 ≤ d.1.length ∧ d.1.length ≤ 2 then
    match d.2 with
    | c :: rest =>
      if c == 'T' || c == ' ' then parseTimePart y mo (digitsToNat d.1) rest
      else none
    | [] => none
  else none

/-- `M[M]` month group of `datetime_re`, followed by `-`. -/
def parseMonthPart (y : Nat) (l : List Char) : Option PyDateTime :=
  let mo := takeDigits l
  if 1 ≤ mo.1.length ∧ mo.1.length ≤ 2 then
    match mo.2 with
    | c :: rest =>
      if c == '-' then parseDayPart y (digitsToNat mo.1) rest
      else none
    | [] => none
  else none

/-- Character-list body of pydantic v1's `parse_datetime` for a
non-numeric string: anchored match of `datetime_re`
(`YYYY-M[M]-D[D][T ]H[H]:M[M][:S[S][.ffffff]][Z or signed offset]`)
followed by the `datetime(...)` construction; any failure becomes a
ValidationError with reason "invalid datetime format". -/
def parseDTChars : List Char → Option PyDateTime
  | y1 :: y2 :: y3 :: y4 :: c :: rest =>
    if ([y1, y2, y3, y4].all Char.isDigit) = true ∧ c = '-' then
      parseMonthPart (digitsToNat [y1, y2, y3, y4]) rest
    else none
  | _ => none

/-- pydantic v1 `parse_datetime` on a string input.  (For a string that
Python's `float` accepts, pydantic instead reads a unix timestamp; the
claims here only concern strings containing a colon, which are never
float-parseable, so that branch is not modelled.) -/
def parse_datetime (s : String) : Option PyDateTime :=
  parseDTChars s.toList

/-- Modelled from the spec: the claimed bit-exact timestamp contract,
"sold_at must parse as YYYY-MM-DD HH:MM:SS (ISO-like, space-separated,
second precision, no timezone suffix)" — exactly four digits, dash, two
digits, dash, two digits, space, two digits, colon, two digits, colon,
two digits, denoting an in-range date and time. -/
def specExactChars : List Char → Bool
  | [a1, a2, a3, a4, s1, b1, b2, s2, c1, c2, s3, d1, d2, s4, e1, e2, s5,
     f1, f2] =>
    ([a1, a2, a3, a4, b1, b2, c1, c2, d1, d2, e1, e2, f1, f2].all
        Char.isDigit) &&
      s1 == '-' && s2 == '-' && s3 == ' ' && s4 == ':' && s5 == ':' &&
      (mkPyDateTime (digitsToNat [a1, a2, a3, a4]) (digitsToNat [b1, b2])
        (digitsToNat [c1, c2]) (digitsToNat [d1, d2])
        (digitsToNat [e1, e2]) (digitsToNat [f1, f2]) 0 none).isSome
  | _ => false

/-- Modelled from the spec, string form of `specExactChars`. -/
def specExactFormat (s : String) : Bool :=
  specExactChars s.toList

/-- CashBackTransaction model: `sold_at: datetime`, `customer: Customer`,
`total: float`, `products: List[Product]`, in this declaration order. -/
structure CashBackTransaction where
  sold_at : PyDateTime
  customer : Customer
  total : Rat
  products : List Product
deriving DecidableEq

/-- Validation of the items of the `products: List[Product]` field, in
order: each item runs Product construction; nested ValidationErrors are
collected under the item's index; an exception that pydantic does not
catch (the KeyError of `value_must_be_positive`) aborts the whole
construction. -/
def validateProducts (cats : List String) :
    List (String × Int × Int) → Nat →
      Except String (List (String × String) × List Product)
  | [], _ => Except.ok ([], [])
  | item :: rest, i =>
    match constructProduct cats item.1 item.2.1 item.2.2 with
    | Outcome.uncaught exc => Except.error exc
    | Outcome.ok p =>
      match validateProducts cats rest (i + 1) with
      | Except.error e => Except.error e
      | Except.ok (errs, ps) => Except.ok (errs, p :: ps)
    | Outcome.validationError errs =>
      match validateProducts cats rest (i + 1) with
      | Except.error e => Except.error e
      | Except.ok (errs2, ps) =>
        Except.ok
          (errs.map (fun fe => ("products." ++ toString i ++ "." ++ fe.1, fe.2))
              ++ errs2,
            ps)

/-- CashBackTransaction construction: `sold_at` must satisfy pydantic's
datetime parse (rejection reason "invalid datetime format"); `customer`
and `total` are well-typed and validator-free; every product is
validated as in `constructProduct`, and all field errors are collected
into one ValidationError unless an uncaught exception escapes first. -/
def constructCashBackTransaction (cats : List String) (soldAt : String)
    (customerName : String) (customerCpf : Int) (total : Rat)
    (products : List (String × Int × Int)) : Outcome CashBackTransaction :=
  match validateProducts cats products 0 with
  | Except.error exc => Outcome.uncaught exc
  | Except.ok (perrs, ps) =>
    match parse_datetime soldAt with
    | some dt =>
      match perrs with
      | [] => Outcome.ok ⟨dt, ⟨customerName, customerCpf⟩, total, ps⟩
      | _ => Outcome.validationError perrs
    | none =>
      Outcome.validationError (("sold_at", "invalid datetime format") :: perrs)

/-- Helper: success of Product construction, characterised by the three
validator conditions. -/
theorem constructProduct_isOk_iff (cats : List String) (cat : String)
    (q v : Int) :
    (constructProduct cats cat q v).isOk = true ↔
      (category_must_be_valid cats cat = none ∧ 0 ≤ q ∧ 0 ≤ v ∧
        (v = 0 ∨ q ≠ 0)) := by
  by_cases hq : q < 0 <;> by_cases hv : v < 0 <;> by_cases hv0 : v = 0 <;>
    by_cases hq0 : q = 0 <;>
      cases hcat : category_must_be_valid cats cat <;>
        simp [constructProduct, quantity_must_be_positive,
          value_must_be_positive, optErr, Outcome.isOk, hq, hv, hv0, hq0,
          hcat] <;>
          omega

/-- Helper: when every product item passes its own validation, the
products field contributes no errors and no uncaught exception. -/
theorem validateProducts_all_ok (cats : List String)
    (items : List (String × Int × Int)) (i : Nat)
    (hp : ∀ x ∈ items, (constructProduct cats x.1 x.2.1 x.2.2).isOk = true) :
    ∃ ps, validateProducts cats items i = Except.ok ([], ps) := by
  induction items generalizing i with
  | nil => exact ⟨[], rfl⟩
  | cons item rest ih =>
    have h1 := hp item (by simp)
    obtain ⟨p, hp1⟩ :
        ∃ p, constructProduct cats item.1 item.2.1 item.2.2 = Outcome.ok p := by
      cases hx : constructProduct cats item.1 item.2.1 item.2.2 <;>
        simp [hx, Outcome.isOk] at h1 ⊢
    obtain ⟨ps, hps⟩ := ih (i + 1) (fun x hx => hp x (by simp [hx]))
    exact ⟨p :: ps, by simp [validateProducts, hp1, hps]⟩

/-- Helper: every character list in the exact spec layout
"YYYY-MM-DD HH:MM:SS" (with in-range components) is accepted by the
embedded pydantic datetime parse. -/
theorem specExactChars_parses (l : List Char) (h : specExactChars l = true) :
    (parseDTChars l).isSome = true := by
  have hdashD : ('-' : Char).isDigit = false := by decide
  have hspaceD : (' ' : Char).isDigit = false := by decide
  have hcolonD : (':' : Char).isDigit = false := by decide
  have hspT : ((' ' : Char) == 'T') = false := by decide
  have hspS : ((' ' : Char) == ' ') = true := by decide
  rcases l with _ | ⟨a1, l⟩
  · simp [specExactChars] at h
  rcases l with _ | ⟨a2, l⟩
  · simp [specExactChars] at h
  rcases l with _ | ⟨a3, l⟩
  · simp [specExactChars] at h
  rcases l with _ | ⟨a4, l⟩
  · simp [specExactChars] at h
  rcases l with _ | ⟨s1, l⟩
  · simp [specExactChars] at h
  rcases l with _ | ⟨b1, l⟩
  · simp [specExactChars] at h
  rcases l with _ | ⟨b2, l⟩
  · simp [specExactChars] at h
  rcases l with _ | ⟨s2, l⟩
  · simp [specExactChars] at h
  rcases l with _ | ⟨c1, l⟩
  · simp [specExactChars] at h
  rcases l with _ | ⟨c2, l⟩
  · simp [specExactChars] at h
  rcases l with _ | ⟨s3, l⟩
  · simp [specExactChars] at h
  rcases l with _ | ⟨d1, l⟩
  · simp [specExactChars] at h
  rcases l with _ | ⟨d2, l⟩
  · simp [specExactChars] at h
  rcases l with _ | ⟨s4, l⟩
  · simp [specExactChars] at h
  rcases l with _ | ⟨e1, l⟩
  · simp [specExactChars] at h
  rcases l with _ | ⟨e2, l⟩
  · simp [specExactChars] at h
  rcases l with _ | ⟨s5, l⟩
  · simp [specExactChars] at h
  rcases l with _ | ⟨f1, l⟩
  · simp [specExactChars] at h
  rcases l with _ | ⟨f2, l⟩
  · simp [specExactChars] at h
  rcases l with _ | ⟨g, l⟩
  case cons => simp [specExactChars] at h
  simp only [specExactChars, List.all_cons, List.all_nil, Bool.and_eq_true,
    Bool.and_true, beq_iff_eq] at h
  obtain ⟨⟨⟨⟨⟨⟨hdig, h1⟩, h2⟩, h3⟩, h4⟩, h5⟩, hmk⟩ := h
  obtain ⟨ha1, ha2, ha3, ha4, hb1, hb2, hc1, hc2, hd1, hd2, he1, he2, hf1,
    hf2⟩ := hdig
  subst h1 h2 h3 h4 h5
  simp [parseDTChars, parseMonthPart, parseDayPart, parseTimePart,
    parseSecondPart, parseTzEndThen, parseTzTail, takeDigits, ha1, ha2, ha3,
    ha4, hb1, hb2, hc1, hc2, hd1, hd2, he1, he2, hf1, hf2, hdashD, hspaceD,
    hcolonD, hspT, hspS, hmk]

/-- C1: `update_exp_date` never sets `exp`.  For every payload, current
time and lifetime (the 15-minute default included), the attribute lookup
`self.datetime` raises AttributeError, so the call always fails and the
payload keeps its previous `exp`; the spec's described behaviour
(exp becomes now + lifetime, sub untouched, a second call overwrites)
is never reached. -/
theorem C1_update_exp_date_always_raises (p : JWTPayload)
    (now lifetime : Int) :
    p.update_exp_date now lifetime = Except.error "AttributeError" := rfl

/-- C2: with a valid known category, Product construction fails for every
negative quantity; and for every nonnegative quantity it fails iff
value < 0 or (value ≠ 0 and quantity = 0), succeeding in every other
combination. -/
theorem C2_product_failure_conditions (cats : List String) (cat : String)
    (q v : Int) (hname : re_names_fullmatch cat = true) (hmem : cat ∈ cats) :
    (q < 0 → (constructProduct cats cat q v).isOk = false) ∧
    (0 ≤ q → ((constructProduct cats cat q v).isOk = false ↔
      (v < 0 ∨ (v ≠ 0 ∧ q = 0)))) := by
  have hcat : category_must_be_valid cats cat = none := by
    simp [category_must_be_valid, hname, hmem]
  have h := constructProduct_isOk_iff cats cat q v
  simp only [hcat, true_and] at h
  have h2 : (constructProduct cats cat q v).isOk = false ↔
      ¬((constructProduct cats cat q v).isOk = true) := by
    cases (constructProduct cats cat q v).isOk <;> simp
  rw [h2, h]
  omega

/-- C2 witness: the concrete instance (category "Eletronico" in the set,
quantity 2, value 150) instantiates the theorem; construction succeeds
there. -/
theorem C2_product_failure_conditions_witness :
    (0 : Int) ≤ 2 ∧
      ((constructProduct ["Eletronico"] "Eletronico" 2 150).isOk = false ↔
        ((150 : Int) < 0 ∨ ((150 : Int) ≠ 0 ∧ (2 : Int) = 0))) :=
  ⟨by decide,
    (C2_product_failure_conditions ["Eletronico"] "Eletronico" 2 150
      (by decide) (by decide)).2 (by decide)⟩

/-- C3: with quantity and value that pass their own checks, the category
check rejects a string failing the name pattern with reason
"product name invalid", rejects a pattern-matching string outside the
known-category set with reason "unknown product", and otherwise
passes. -/
theorem C3_category_check (cats : List String) (s : String) (q v : Int)
    (hq : 0 < q) (hv : 0 < v) :
    (re_names_fullmatch s = false →
      constructProduct cats s q v =
        Outcome.validationError [("category", "product name invalid")]) ∧
    (re_names_fullmatch s = true → s ∉ cats →
      constructProduct cats s q v =
        Outcome.validationError [("category", "unknown product")]) ∧
    (re_names_fullmatch s = true → s ∈ cats →
      constructProduct cats s q v = Outcome.ok ⟨s, q, v⟩) := by
  have hqe : quantity_must_be_positive q = none := by
    simp [quantity_must_be_positive]
    omega
  have hv1 : ¬ v < 0 := by omega
  have hv0 : ¬ v = 0 := by omega
  have hq0 : ¬ q = 0 := by omega
  refine ⟨fun hn => ?_, fun hn hm => ?_, fun hn hm => ?_⟩
  · simp [constructProduct, category_must_be_valid, value_must_be_positive,
      hqe, hn, hv1, hv0, hq0, optErr]
  · simp [constructProduct, category_must_be_valid, value_must_be_positive,
      hqe, hn, hm, hv1, hv0, hq0, optErr]
  · simp [constructProduct, category_must_be_valid, value_must_be_positive,
      hqe, hn, hm, hv1, hv0, hq0, optErr]

/-- C3 witness: instantiating at the scenario strings of the spec, with
quantity 1 and value 10. -/
theorem C3_category_check_witness :
    (re_names_fullmatch "xyz123" = false →
      constructProduct ["Eletronico"] "xyz123" 1 10 =
        Outcome.validationError [("category", "product name invalid")]) ∧
    (re_names_fullmatch "xyz123" = true → "xyz123" ∉ ["Eletronico"] →
      constructProduct ["Eletronico"] "xyz123" 1 10 =
        Outcome.validationError [("category", "unknown product")]) ∧
    (re_names_fullmatch "xyz123" = true → "xyz123" ∈ ["Eletronico"] →
      constructProduct ["Eletronico"] "xyz123" 1 10 =
        Outcome.ok ⟨"xyz123", 1, 10⟩) :=
  C3_category_check ["Eletronico"] "xyz123" 1 10 (by decide) (by decide)

/-- C4 counterexample: at `(category "Eletronico", quantity 0, value 150)`
the raised reason is the source's misspelt "product whitout the
quantity", which differs from the claimed exact string
"product without the quantity". -/
theorem C4_reason_string_typo :
    constructProduct ["Eletronico"] "Eletronico" 0 150 =
      Outcome.validationError [("value", "product whitout the quantity")] ∧
    "product whitout the quantity" ≠ "product without the quantity" :=
  ⟨by decide, by decide⟩

/-- C4 (amended): the value validator rejects a negative value with
reason "product value cannot be negative" and a nonzero value paired
with zero quantity with reason "product whitout the quantity" (the
source's exact strings). -/
theorem C4_value_reasons (cats : List String) (cat : String) (q v : Int)
    (hname : re_names_fullmatch cat = true) (hmem : cat ∈ cats)
    (hq : 0 ≤ q) :
    (v < 0 → constructProduct cats cat q v =
      Outcome.validationError [("value", "product value cannot be negative")]) ∧
    (0 < v → q = 0 → constructProduct cats cat q v =
      Outcome.validationError [("value", "product whitout the quantity")]) := by
  have hcat : category_must_be_valid cats cat = none := by
    simp [category_must_be_valid, hname, hmem]
  have hqe : quantity_must_be_positive q = none := by
    simp [quantity_must_be_positive]
    omega
  refine ⟨fun hv => ?_, fun hv hq0 => ?_⟩
  · simp [constructProduct, hcat, hqe, value_must_be_positive, hv, optErr]
  · subst hq0
    have hv1 : ¬ v < 0 := by omega
    have hvn : v ≠ 0 := by omega
    simp [constructProduct, hcat, hqe, value_must_be_positive,
      quantity_must_be_positive, hv1, hvn, optErr]

/-- C4 witness: the spec scenario `(category "Eletronico", quantity 0,
value 150)` instantiates the amended theorem. -/
theorem C4_value_reasons_witness :
    (0 : Int) < 150 ∧ (2 : Int) - 2 = 0 ∧
      constructProduct ["Eletronico"] "Eletronico" 0 150 =
        Outcome.validationError [("value", "product whitout the quantity")] :=
  ⟨by decide, by decide,
    (C4_value_reasons ["Eletronico"] "Eletronico" 0 150 (by decide)
      (by decide) (by decide)).2 (by decide) (by decide)⟩

/-- C5: when the quantity is negative and the value positive, the value
validator subscripts the absent `quantity` key of `values` and the
resulting KeyError escapes construction uncaught: the outcome is
neither an instance nor a ValidationError. -/
theorem C5_keyerror_escapes (cats : List String) (cat : String) (q v : Int)
    (hq : q < 0) (hv : 0 < v) :
    constructProduct cats cat q v = Outcome.uncaught "KeyError: quantity" := by
  have hv1 : ¬ v < 0 := by omega
  have hvn : v ≠ 0 := by omega
  simp [constructProduct, quantity_must_be_positive, value_must_be_positive,
    hq, hv1, hvn]

/-- C5 witness: a concrete run hitting the uncaught KeyError. -/
theorem C5_keyerror_escapes_witness :
    constructProduct ["Eletronico"] "Eletronico" (-1) 5 =
      Outcome.uncaught "KeyError: quantity" :=
  C5_keyerror_escapes ["Eletronico"] "Eletronico" (-1) 5 (by decide) (by decide)

/-- C6 counterexample: with an invalid category, a negative quantity and
a negative value, the single ValidationError reports all three violated
fields, not only the first one. -/
theorem C6_not_fail_fast :
    constructProduct ["Eletronico"] "xyz123" (-1) (-3) =
      Outcome.validationError
        [("category", "product name invalid"),
         ("quantity", "product quantity cannot be negative"),
         ("value", "product value cannot be negative")] ∧
    ([("category", "product name invalid"),
      ("quantity", "product quantity cannot be negative"),
      ("value", "product value cannot be negative")] :
        List (String × String)).length ≠ 1 :=
  ⟨by decide, by decide⟩

/-- C6 (amended): construction does not fail fast; whenever it raises a
ValidationError, that error reports every violated field, in the
declaration order category, quantity, value. -/
theorem C6_errors_collected (cats : List String) (cat : String) (q v : Int)
    (errs : List (String × String))
    (h : constructProduct cats cat q v = Outcome.validationError errs) :
    errs.map Prod.fst =
      (if (category_must_be_valid cats cat).isSome then ["category"] else []) ++
      (if q < 0 then ["quantity"] else []) ++
      (if v < 0 ∨ (v ≠ 0 ∧ q = 0) then ["value"] else []) := by
  by_cases hq : q < 0 <;> by_cases hv : v < 0 <;> by_cases hv0 : v = 0 <;>
    by_cases hq0 : q = 0 <;>
      cases hcat : category_must_be_valid cats cat <;>
        simp [constructProduct, quantity_must_be_positive,
          value_must_be_positive, optErr, hq, hv, hv0, hq0, hcat] at h <;>
        (try subst h) <;>
        simp [hq, hv, hv0, hq0, hcat]

/-- C6 witness: the all-three-violations run instantiates the amended
theorem. -/
theorem C6_errors_collected_witness :
    ([("category", "product name invalid"),
      ("quantity", "product quantity cannot be negative"),
      ("value", "product value cannot be negative")] :
        List (String × String)).map Prod.fst =
      (if (category_must_be_valid ["Eletronico"] "xyz123").isSome
        then ["category"] else []) ++
      (if (-1 : Int) < 0 then ["quantity"] else []) ++
      (if (-3 : Int) < 0 ∨ ((-3 : Int) ≠ 0 ∧ (-1 : Int) = 0)
        then ["value"] else []) :=
  C6_errors_collected ["Eletronico"] "xyz123" (-1) (-3) _ (by decide)

/-- C7 counterexample: the sold_at string "2023-01-15T10:30:00" is not in
the exact "YYYY-MM-DD HH:MM:SS" format (its separator is "T"), yet the
transaction is constructed successfully. -/
theorem C7_t_separator_accepted :
    (constructCashBackTransaction ["Eletronico"] "2023-01-15T10:30:00"
        "Maria Silva" 12345678901 300 [("Eletronico", 2, 150)]).isOk = true ∧
      specExactFormat "2023-01-15T10:30:00" = false :=
  ⟨by decide, by decide⟩

/-- C7 (amended): with valid customer, total and products, construction
fails with ValidationError iff pydantic's datetime parse rejects
sold_at.  That parse accepts every string in the exact
"YYYY-MM-DD HH:MM:SS" layout, but also other ISO-8601-like layouts
("T" separator, omitted seconds, fractional seconds, timezone suffix),
so strings in those other formats are not rejected.  The colon
hypothesis keeps the string out of pydantic's separate numeric
unix-timestamp branch, which is not modelled: a Python-float-parseable
string never contains a colon. -/
theorem C7_sold_at_parsing (cats : List String) (soldAt : String)
    (customerName : String) (customerCpf : Int) (total : Rat)
    (products : List (String × Int × Int))
    (_hcolon : soldAt.toList.contains ':' = true)
    (hp : ∀ x ∈ products,
      (constructProduct cats x.1 x.2.1 x.2.2).isOk = true) :
    (((constructCashBackTransaction cats soldAt customerName customerCpf
        total products).isOk = true) ↔
      ((parse_datetime soldAt).isSome = true)) ∧
    (specExactFormat soldAt = true →
      (parse_datetime soldAt).isSome = true) := by
  obtain ⟨ps, hps⟩ := validateProducts_all_ok cats products 0 hp
  constructor
  · unfold constructCashBackTransaction
    rw [hps]
    cases hdt : parse_datetime soldAt <;> simp [Outcome.isOk, hdt]
  · exact fun hs => specExactChars_parses soldAt.toList hs

/-- C7 witness: the spec scenario timestamp instantiates the amended
theorem; both sides of the equivalence hold there. -/
theorem C7_sold_at_parsing_witness :
    (((constructCashBackTransaction ["Eletronico"] "2023-01-15 10:30:00"
        "Maria Silva" 12345678901 300 [("Eletronico", 2, 150)]).isOk = true) ↔
      ((parse_datetime "2023-01-15 10:30:00").isSome = true)) ∧
    (specExactFormat "2023-01-15 10:30:00" = true →
      (parse_datetime "2023-01-15 10:30:00").isSome = true) :=
  C7_sold_at_parsing ["Eletronico"] "2023-01-15 10:30:00" "Maria Silva"
    12345678901 300 [("Eletronico", 2, 150)] (by decide) (by decide)

/-- C8: the `value` field is annotated `int` in the source (contrary to
its docstring's float); a fractional input value 10.5 is silently
truncated to 10, so reading the field back does not return the input. -/
theorem C8_fractional_value_truncated :
    constructProductFloatValue ["Eletronico"] "Eletronico" 1 (mkRat 21 2) =
      Outcome.ok ⟨"Eletronico", 1, 10⟩ ∧ mkRat 21 2 ≠ (10 : Rat) :=
  ⟨by decide, by decide⟩

/-- C9 counterexample: Customer declares no validators, so an empty name
string is accepted, contradicting the claimed non-empty requirement. -/
theorem C9_empty_name_accepted :
    constructCustomer "" 12345678901 = Outcome.ok ⟨"", 12345678901⟩ := rfl

/-- C9 (amended): constructing a Customer requires a name string, which
may be empty, and an integer identification number; no semantic check is
performed on either field and well-typed construction always succeeds,
returning the values unchanged. -/
theorem C9_customer_unvalidated (name : String) (cpf : Int) :
    constructCustomer name cpf = Outcome.ok ⟨name, cpf⟩ := rfl

/-- C10: every integer, negative or of any digit count, is accepted for
`customer_cpf`: no digit-count or sign check exists. -/
theorem C10_cpf_never_checked (name : String) (n : Int) :
    (constructCustomer name n).isOk = true := rfl
